import Mathlib

/-!
Verification of the RSI-divergence trading bot (`rsi_divergence_bot.py`).

The source is a single Python file with two drivers sharing one persisted
position record:
  * `bot_logic` — the slow Strategy Cycle (reconciliation, indicators,
    entries and exits), and
  * `trailing_stop_checker` — the Fast Stop Poller (trailing stop only).

We embed both drivers as pure functions.  External effects (venue calls,
store writes) are reified as an ordered `List BotAction` emitted by a tick;
environment responses (venue position size, ticker price, whether a venue
call raises) are explicit inputs.  Python floats are idealised as exact
rationals (ℚ); `float(f"{x:.{d}f}")` is idealised as rounding to `d`
decimal places.  The state-manager module (`get_state` / `set_state` /
`reset_state`) is not part of the sources; per the spec it is a plain
load/save of the single record, so a tick takes the stored record as input
and returns the stored record after the tick, with every `set_state` /
`reset_state` also reified as a `persist` action in the trace.
-/

/-- Strategy parameter `ATR_MULTIPLIER = 1.1` from the source configuration. -/
def ATR_MULTIPLIER : ℚ := 11 / 10

/-- Strategy parameter `PROFIT_TARGET_PCT = 0.01` from the source configuration. -/
def PROFIT_TARGET_PCT : ℚ := 1 / 100

/-- Strategy parameter `STOP_LOSS_PCT = 0.008` from the source configuration. -/
def STOP_LOSS_PCT : ℚ := 8 / 1000

/-- Idealisation of Python `float(f"{x:.{d}f}")`: round to `d` decimal places. -/
def roundDec (d : ℕ) (x : ℚ) : ℚ := ((round (x * 10 ^ d) : ℤ) : ℚ) / 10 ^ d

/-- Position side, the `position_side` field (`'long'` / `'short'`). -/
inductive Side
  | long
  | short
deriving DecidableEq, Repr

/-- `is_long = state['position_side'] == 'long'`. -/
def Side.isLong : Side → Bool
  | Side.long => true
  | Side.short => false

/-- Order side for venue order calls (`'buy'` / `'sell'`). -/
inductive OrderSide
  | buy
  | sell
deriving DecidableEq, Repr

/-- The persisted position record (the state dict of the source).  Fields the
source reads with a `None`-tolerant `state.get` are `Option`s; `entry_price`,
`stop_loss_price`, `target_price` and `position_side` are read unguarded and
only while `active_trade` is set, so they are plain fields (meaningless when
inactive, matching the spec's "undefined when flat"). -/
structure PositionState where
  active_trade : Bool
  position_side : Side
  entry_price : ℚ
  stop_loss_price : ℚ
  target_price : ℚ
  highest : Option ℚ
  lowest : Option ℚ
  trailing_stop_level : Option ℚ
  sl_order_id : Option ℕ
  tp_order_id : Option ℕ
  atr_at_entry : Option ℚ
  closing : Bool
deriving DecidableEq, Repr

/-- Modelled from the spec: `reset_state` / `initialize_state` live in the
absent `state_manager_rsidiv` module; the spec says the record is "created
inactive at process start" and "reset to the inactive template" on close, with
`active=false` implying all price/stop fields are undefined/cleared and
`closing` cleared. -/
def resetTemplate : PositionState :=
  { active_trade := false
    position_side := Side.long
    entry_price := 0
    stop_loss_price := 0
    target_price := 0
    highest := none
    lowest := none
    trailing_stop_level := none
    sl_order_id := none
    tp_order_id := none
    atr_at_entry := none
    closing := false }

/-- Observable effects of a tick, in program order: venue calls and
position-store writes. -/
inductive BotAction
  | fetchPositions
  | fetchCandles
  | fetchTicker
  | persist (s : PositionState)
  | cancelOrder (oid : ℕ)
  | marketOrder (side : OrderSide) (qty : ℚ) (reduceOnly : Bool)
  | stopOrder (side : OrderSide) (qty : ℚ) (trigger : ℚ)
deriving DecidableEq, Repr

/-- `for oid in [state.get('sl_order_id'), state.get('tp_order_id')]: if oid:
cancel_order(oid)` — the protective-order cancellation loop shared by both
close paths (cancellation failures are logged and ignored, so they do not
affect control flow). -/
def cancelActs (s : PositionState) : List BotAction :=
  (s.sl_order_id.toList ++ s.tp_order_id.toList).map BotAction.cancelOrder

/-- Venue market metadata and process configuration consumed by the entry
path (`MIN_AMOUNT`, `MIN_NOTIONAL`, precision decimals, `ORDER_SIZE_USD`). -/
structure MarketInfo where
  minAmount : ℚ
  minNotional : ℚ
  amountDecimals : ℕ
  priceDecimals : ℕ
  orderSizeUsd : ℚ
deriving DecidableEq, Repr

/-- Environment of one Strategy Cycle tick: venue position amount (signed, as
`positionAmt`), whether the candle fetch returned enough rows, the latest
close price and ATR, the divergence flags of the latest row, whether each
fallible order call succeeds, and the ids the venue assigns to the protective
orders. -/
structure CycleInput where
  exchPosAmt : ℚ
  candlesSufficient : Bool
  price : ℚ
  atr : ℚ
  bullishDiv : Bool
  bearishDiv : Bool
  closeOrderOk : Bool
  entryOrderOk : Bool
  protOrdersOk : Bool
  slOrderId : ℕ
  tpOrderId : ℕ
deriving DecidableEq, Repr

/-- Trailing-stop update embedded in the Strategy Cycle's exit branch
(source lines 156–177): push the running extremum, recompute
`trail_dist = max(ATR_MULTIPLIER*atr_at_entry, price*STOP_LOSS_PCT)`, and
accept the candidate stop only if it improves on the existing level.
Returns `(highest, lowest, trailing_stop_level)` after the update. -/
def cycleTrailUpdate (isLong : Bool) (price : ℚ) (highest lowest tsl : Option ℚ)
    (atr : ℚ) : Option ℚ × Option ℚ × ℚ :=
  if isLong then
    let h := match highest with
      | none => price
      | some h0 => if h0 < price then price else h0
    let trailDist := max (ATR_MULTIPLIER * atr) (price * STOP_LOSS_PCT)
    let cand := h - trailDist
    let t := match tsl with
      | none => cand
      | some t0 => if t0 < cand then cand else t0
    (some h, lowest, t)
  else
    let l := match lowest with
      | none => price
      | some l0 => if price < l0 then price else l0
    let trailDist := max (ATR_MULTIPLIER * atr) (price * STOP_LOSS_PCT)
    let cand := l + trailDist
    let t := match tsl with
      | none => cand
      | some t0 => if cand < t0 then cand else t0
    (highest, some l, t)

/-- Why a close was decided. -/
inductive CloseReason
  | trailingStop
  | profitTarget
deriving DecidableEq, Repr

/-- Exit decision of the Strategy Cycle (source lines 165–168 / 178–181):
trailing stop is checked first, then the profit target (`elif`). -/
def cycleCloseReason (isLong : Bool) (price tsl target : ℚ) : Option CloseReason :=
  if isLong then
    if price ≤ tsl then some CloseReason.trailingStop
    else if target ≤ price then some CloseReason.profitTarget
    else none
  else
    if tsl ≤ price then some CloseReason.trailingStop
    else if price ≤ target then some CloseReason.profitTarget
    else none

/-- Exit branch of `bot_logic` (source lines 145–215).  Note that on the close
path the record is persisted as the tick's *input* record with only `closing`
flipped: the locally updated extremum and trailing level are written back only
on the no-exit path (lines 206–211). -/
def cycleExit (inp : CycleInput) (s : PositionState) (acts : List BotAction) :
    List BotAction × PositionState :=
  let price := inp.price
  let isLong := s.position_side.isLong
  let atrAtEntry := s.atr_at_entry.getD inp.atr
  let u := cycleTrailUpdate isLong price s.highest s.lowest s.trailing_stop_level atrAtEntry
  match cycleCloseReason isLong price u.2.2 s.target_price with
  | some _ =>
      let s1 := { s with closing := true }
      let closeSide := if isLong then OrderSide.sell else OrderSide.buy
      let acts2 := acts ++ [BotAction.persist s1] ++ cancelActs s
        ++ [BotAction.marketOrder closeSide |inp.exchPosAmt| true]
      if inp.closeOrderOk then
        (acts2 ++ [BotAction.persist resetTemplate], resetTemplate)
      else (acts2, s1)
  | none =>
      let s2 := { s with
        highest := u.1
        lowest := u.2.1
        trailing_stop_level := some u.2.2
        atr_at_entry := some atrAtEntry }
      (acts ++ [BotAction.persist s2], s2)

/-- Entry branch of `bot_logic` (source lines 217–303): pick the side from the
divergence flags; bump the notional target to at least `1.1` times the minimum
notional; round the amount to the venue's amount precision; reject locally
(no venue call, no record) if the rounded amount or its notional is below the
venue minimums; otherwise submit the market entry, place the protective
STOP_MARKET / TAKE_PROFIT_MARKET orders, and persist the new record with the
prices rounded to the venue's price precision.  Any exception in the `try`
block (entry order, protective orders) leaves the stored record untouched. -/
def cycleEntry (m : MarketInfo) (inp : CycleInput) (s : PositionState)
    (acts : List BotAction) : List BotAction × PositionState :=
  if inp.bullishDiv || inp.bearishDiv then
    let isLong := inp.bullishDiv
    let price := inp.price
    let minUsd := m.minNotional * (11 / 10)
    let orderSizeUsd := max m.orderSizeUsd minUsd
    let amount := roundDec m.amountDecimals (orderSizeUsd / price)
    if amount < m.minAmount ∨ amount * price < m.minNotional then (acts, s)
    else
      let side := if isLong then OrderSide.buy else OrderSide.sell
      let acts1 := acts ++ [BotAction.marketOrder side amount false]
      if !inp.entryOrderOk then (acts1, s)
      else
        let trailDist := max (ATR_MULTIPLIER * inp.atr) (price * STOP_LOSS_PCT)
        let stopLossPrice := if isLong then price - trailDist else price + trailDist
        let targetPrice := if isLong then price + price * PROFIT_TARGET_PCT
          else price - price * PROFIT_TARGET_PCT
        let trailingStopLevel := if isLong then price - trailDist else price + trailDist
        let protSide := if isLong then OrderSide.sell else OrderSide.buy
        let acts2 := acts1 ++ [BotAction.stopOrder protSide amount stopLossPrice,
          BotAction.stopOrder protSide amount targetPrice]
        if !inp.protOrdersOk then (acts2, s)
        else
          let d := m.priceDecimals
          let newState : PositionState :=
            { active_trade := true
              position_side := if isLong then Side.long else Side.short
              entry_price := price
              stop_loss_price := roundDec d stopLossPrice
              target_price := roundDec d targetPrice
              highest := if isLong then some price else none
              lowest := if isLong then none else some price
              trailing_stop_level := some (roundDec d trailingStopLevel)
              sl_order_id := some inp.slOrderId
              tp_order_id := some inp.tpOrderId
              atr_at_entry := some inp.atr
              closing := false }
          (acts2 ++ [BotAction.persist newState], newState)
  else (acts, s)

/-- `bot_logic` after reconciliation (source lines 133–303): fetch candles,
abort the tick if there are too few rows, then run the exit branch when a
trade is active and the entry branch otherwise. -/
def cycleContinue (m : MarketInfo) (inp : CycleInput) (s : PositionState)
    (acts : List BotAction) : List BotAction × PositionState :=
  let acts1 := acts ++ [BotAction.fetchCandles]
  if !inp.candlesSufficient then (acts1, s)
  else if s.active_trade then cycleExit inp s acts1
  else cycleEntry m inp s acts1

/-- The Strategy Cycle tick `bot_logic` (source lines 106–308): skip the whole
tick when `closing` is set; otherwise fetch the venue position and reconcile
(local active + venue flat ⇒ reset to the template and continue; local flat +
venue non-flat ⇒ abort the tick unchanged), then continue with candles,
exit or entry. -/
def bot_logic (m : MarketInfo) (inp : CycleInput) (s : PositionState) :
    List BotAction × PositionState :=
  if s.closing then ([], s)
  else
    let acts := [BotAction.fetchPositions]
    if s.active_trade = true ∧ inp.exchPosAmt = 0 then
      cycleContinue m inp resetTemplate (acts ++ [BotAction.persist resetTemplate])
    else if s.active_trade = false ∧ inp.exchPosAmt ≠ 0 then
      (acts, s)
    else cycleContinue m inp s acts

/-- Environment of one Fast Stop Poller tick: the ticker price, the ATR the
fallback recomputation would produce when `atr_at_entry` is absent, the venue
position amount fetched inside the close path, and whether the two fallible
close-path calls (`fetch_positions`, `create_market_order`) succeed. -/
structure PollInput where
  price : ℚ
  fallbackAtr : ℚ
  exchPosAmt : ℚ
  closeFetchOk : Bool
  closeOrderOk : Bool
deriving DecidableEq, Repr

/-- Trailing-stop update embedded in the Fast Stop Poller
(source lines 329–346): push the running extremum, recompute
`trail_dist = max(ATR_MULTIPLIER*atr_at_entry, price*STOP_LOSS_PCT)`, and
accept the candidate stop only if it improves on the existing level.
Returns `(highest, lowest, trailing_stop_level)` after the update. -/
def pollerTrailUpdate (isLong : Bool) (price : ℚ) (highest lowest tsl : Option ℚ)
    (atr : ℚ) : Option ℚ × Option ℚ × ℚ :=
  if isLong then
    let h := match highest with
      | none => price
      | some h0 => if h0 < price then price else h0
    let trailDist := max (ATR_MULTIPLIER * atr) (price * STOP_LOSS_PCT)
    let cand := h - trailDist
    let t := match tsl with
      | none => cand
      | some t0 => if t0 < cand then cand else t0
    (some h, lowest, t)
  else
    let l := match lowest with
      | none => price
      | some l0 => if price < l0 then price else l0
    let trailDist := max (ATR_MULTIPLIER * atr) (price * STOP_LOSS_PCT)
    let cand := l + trailDist
    let t := match tsl with
      | none => cand
      | some t0 => if cand < t0 then cand else t0
    (highest, some l, t)

/-- Exit decision of the Fast Stop Poller (source lines 336 / 345): trailing
stop only — the poller never evaluates the profit target. -/
def pollerCloseReason (isLong : Bool) (price tsl : ℚ) : Option CloseReason :=
  if isLong then
    if price ≤ tsl then some CloseReason.trailingStop else none
  else
    if tsl ≤ price then some CloseReason.trailingStop else none

/-- The Fast Stop Poller tick `trailing_stop_checker` (source lines 311–382):
no-op unless a trade is active and not closing; fetch the ticker; recompute
the ATR from fresh candles only when `atr_at_entry` is absent; run the
trailing-stop update; when it triggers, persist the input record with
`closing := true`, cancel protective orders, re-fetch the venue position and
submit a reduce-only close only for a strictly positive venue quantity, then
reset the record — while an exception in the fetch or the order call leaves
the record at `closing = true`.  When it does not trigger, write back the
updated extremum and trailing level. -/
def trailing_stop_checker (inp : PollInput) (s : PositionState) :
    List BotAction × PositionState :=
  if s.active_trade = false ∨ s.closing = true then ([], s)
  else
    let price := inp.price
    let atrActs : List BotAction × ℚ := match s.atr_at_entry with
      | some a => ([], a)
      | none => ([BotAction.fetchCandles], inp.fallbackAtr)
    let acts1 := [BotAction.fetchTicker] ++ atrActs.1
    let isLong := s.position_side.isLong
    let u := pollerTrailUpdate isLong price s.highest s.lowest s.trailing_stop_level atrActs.2
    match pollerCloseReason isLong price u.2.2 with
    | some _ =>
        let s1 := { s with closing := true }
        let closeSide := if isLong then OrderSide.sell else OrderSide.buy
        let acts2 := acts1 ++ [BotAction.persist s1] ++ cancelActs s
          ++ [BotAction.fetchPositions]
        if !inp.closeFetchOk then (acts2, s1)
        else
          let q := |inp.exchPosAmt|
          if 0 < q then
            let acts3 := acts2 ++ [BotAction.marketOrder closeSide q true]
            if inp.closeOrderOk then
              (acts3 ++ [BotAction.persist resetTemplate], resetTemplate)
            else (acts3, s1)
          else (acts2 ++ [BotAction.persist resetTemplate], resetTemplate)
    | none =>
        let s2 := { s with
          highest := u.1
          lowest := u.2.1
          trailing_stop_level := some u.2.2 }
        (acts1 ++ [BotAction.persist s2], s2)

/-! ## Concrete sample values used by witnesses and counterexamples -/

/-- Sample market metadata: min amount 1, min notional 5, whole-unit amount
step, one price decimal, notional target 1400 (the source's config). -/
def mInfo0 : MarketInfo :=
  { minAmount := 1, minNotional := 5, amountDecimals := 0, priceDecimals := 1,
    orderSizeUsd := 1400 }

/-- Sample active long record: entered at 100 with ATR 1, stop/trailing 98.9,
target 101, protective orders 1 and 2 resting. -/
def sLong0 : PositionState :=
  { active_trade := true, position_side := Side.long, entry_price := 100,
    stop_loss_price := 989 / 10, target_price := 101, highest := some 100,
    lowest := none, trailing_stop_level := some (989 / 10), sl_order_id := some 1,
    tp_order_id := some 2, atr_at_entry := some 1, closing := false }

/-- `sLong0` after an exit decision whose close order failed: only `closing`
is flipped. -/
def sLong0closing : PositionState := { sLong0 with closing := true }

/-- Sample Strategy Cycle environment: venue long 10 units, price dropped to
90 (through the 98.9 trailing stop), close order call fails. -/
def cInpFail : CycleInput :=
  { exchPosAmt := 10, candlesSufficient := true, price := 90, atr := 1,
    bullishDiv := false, bearishDiv := false, closeOrderOk := false,
    entryOrderOk := true, protOrdersOk := true, slOrderId := 7, tpOrderId := 8 }

/-- Sample Fast Stop Poller environment at the same dropped price. -/
def pInp0 : PollInput :=
  { price := 90, fallbackAtr := 1, exchPosAmt := 10, closeFetchOk := true,
    closeOrderOk := false }

/-- Venue calls belonging to a close sequence: protective-order cancellations
and reduce-only market orders. -/
def isCloseCall : BotAction → Bool
  | BotAction.cancelOrder _ => true
  | BotAction.marketOrder _ _ ro => ro
  | _ => false

/-- A store write that persists a record with `closing = true`. -/
def isClosingPersist : BotAction → Bool
  | BotAction.persist s => s.closing
  | _ => false

/-- `closeGuarded t seen` holds when every close-sequence venue call in `t`
is preceded (in `t`, or already by `seen`) by a persisted record with
`closing = true`. -/
def closeGuarded : List BotAction → Bool → Bool
  | [], _ => true
  | a :: rest, seen =>
      (!isCloseCall a || seen) && closeGuarded rest (seen || isClosingPersist a)

/-! ## Claims -/

/-- **C1**: an exit-evaluation call that reads a record with `closing = true`
submits no close order and makes no cancel call: the Strategy Cycle returns
before any venue call or store write (empty trace, record unchanged) and the
Fast Stop Poller no-ops likewise, so no close attempt proceeds from a record
observed with `closing = true`. -/
theorem claim_C1 (m : MarketInfo) (inp : CycleInput) (pinp : PollInput)
    (s : PositionState) (hc : s.closing = true) :
    bot_logic m inp s = ([], s) ∧ trailing_stop_checker pinp s = ([], s) := by
  constructor
  · simp [bot_logic, hc]
  · simp [trailing_stop_checker, hc]

/-- Witness for C1 at the concrete closing record `sLong0closing`. -/
theorem claim_C1_witness :
    bot_logic mInfo0 cInpFail sLong0closing = ([], sLong0closing) ∧
    trailing_stop_checker pInp0 sLong0closing = ([], sLong0closing) :=
  claim_C1 mInfo0 cInpFail pInp0 sLong0closing rfl

/-- **C4**: the trailing-stop update of either driver only ratchets in the
position's favor: for a long position the level after the update is ≥ the
level before, for a short position ≤, for every price input and every
extremum/ATR state. -/
theorem claim_C4 (price atr t : ℚ) (h l : Option ℚ) :
    t ≤ (cycleTrailUpdate true price h l (some t) atr).2.2 ∧
    (cycleTrailUpdate false price h l (some t) atr).2.2 ≤ t ∧
    t ≤ (pollerTrailUpdate true price h l (some t) atr).2.2 ∧
    (pollerTrailUpdate false price h l (some t) atr).2.2 ≤ t := by
  refine ⟨?_, ?_, ?_, ?_⟩ <;>
    simp only [cycleTrailUpdate, pollerTrailUpdate, if_true, if_false,
      Bool.false_eq_true] <;>
    split_ifs with h1 <;> linarith

/-- **C9**: the trailing-stop computation embedded in the Strategy Cycle's
exit branch and the one embedded in the Fast Stop Poller are equal as
functions of the record's fields and the current price, whenever
`atr_at_entry` is present (so both drivers use the stored value). -/
theorem claim_C9 (s : PositionState) (isLong : Bool) (price a : ℚ)
    (ha : s.atr_at_entry = some a) :
    cycleTrailUpdate isLong price s.highest s.lowest s.trailing_stop_level a =
      pollerTrailUpdate isLong price s.highest s.lowest s.trailing_stop_level a := rfl

/-- Witness for C9 at the concrete active record `sLong0`. -/
theorem claim_C9_witness :
    cycleTrailUpdate true 90 sLong0.highest sLong0.lowest sLong0.trailing_stop_level 1 =
      pollerTrailUpdate true 90 sLong0.highest sLong0.lowest sLong0.trailing_stop_level 1 :=
  claim_C9 sLong0 true 90 1 rfl

/-- **C7**: the Strategy Cycle exit decision triggers iff the price crosses
the tick's updated trailing-stop level against the position or reaches the
target in the favorable direction, and the trailing-stop check is evaluated
before the target check, so when both conditions hold the recorded reason is
the trailing stop. -/
theorem claim_C7 (isLong : Bool) (price target t' : ℚ)
    (highest lowest tsl : Option ℚ) (atr : ℚ)
    (ht : t' = (cycleTrailUpdate isLong price highest lowest tsl atr).2.2) :
    (isLong = true →
      ((cycleCloseReason isLong price t' target).isSome ↔
        price ≤ t' ∨ target ≤ price) ∧
      (price ≤ t' →
        cycleCloseReason isLong price t' target = some CloseReason.trailingStop)) ∧
    (isLong = false →
      ((cycleCloseReason isLong price t' target).isSome ↔
        t' ≤ price ∨ price ≤ target) ∧
      (t' ≤ price →
        cycleCloseReason isLong price t' target = some CloseReason.trailingStop)) := by
  constructor <;> intro hside <;> subst hside <;>
    constructor <;> simp only [cycleCloseReason] <;> split_ifs <;> simp_all

/-- Witness for C7: long position, price 90 against updated level 98.9,
target 101. -/
theorem claim_C7_witness :
    ((cycleCloseReason true 90 ((cycleTrailUpdate true 90 (some 100) none
        (some (989 / 10)) 1).2.2) 101).isSome ↔
      (90 : ℚ) ≤ (cycleTrailUpdate true 90 (some 100) none
        (some (989 / 10)) 1).2.2 ∨ (101 : ℚ) ≤ 90) ∧
    ((90 : ℚ) ≤ (cycleTrailUpdate true 90 (some 100) none (some (989 / 10)) 1).2.2 →
      cycleCloseReason true 90 ((cycleTrailUpdate true 90 (some 100) none
        (some (989 / 10)) 1).2.2) 101 = some CloseReason.trailingStop) :=
  (claim_C7 true 90 101 _ (some 100) none (some (989 / 10)) 1 rfl).1 rfl

/-- **C8**: Strategy Cycle reconciliation.  Local active + venue flat resets
the record to the inactive template (persisting it) and continues the cycle
from the template; local flat + venue non-flat leaves the record untouched
and aborts the tick after the position fetch, with no order, cancel or store
write. -/
theorem claim_C8 (m : MarketInfo) (inp : CycleInput) (s : PositionState)
    (hc : s.closing = false) :
    (s.active_trade = true → inp.exchPosAmt = 0 →
      bot_logic m inp s =
        cycleContinue m inp resetTemplate
          [BotAction.fetchPositions, BotAction.persist resetTemplate]) ∧
    (s.active_trade = false → inp.exchPosAmt ≠ 0 →
      bot_logic m inp s = ([BotAction.fetchPositions], s)) := by
  constructor <;> intro h1 h2 <;> simp [bot_logic, hc, h1, h2]

/-- Witness for C8: both reconciliation branches at concrete inputs (an
active record against a flat venue, and a flat record against a venue long
10 units). -/
theorem claim_C8_witness :
    (bot_logic mInfo0 { cInpFail with exchPosAmt := 0 } sLong0 =
      cycleContinue mInfo0 { cInpFail with exchPosAmt := 0 } resetTemplate
        [BotAction.fetchPositions, BotAction.persist resetTemplate]) ∧
    (bot_logic mInfo0 cInpFail resetTemplate =
      ([BotAction.fetchPositions], resetTemplate)) :=
  ⟨(claim_C8 mInfo0 { cInpFail with exchPosAmt := 0 } sLong0 rfl).1 rfl rfl,
   (claim_C8 mInfo0 cInpFail resetTemplate rfl).2 rfl (by norm_num [cInpFail])⟩

/-- Helper: a flat, non-closing record with a flat venue passes reconciliation
unchanged. -/
theorem bot_logic_flat_continue (m : MarketInfo) (inp : CycleInput) (s : PositionState)
    (hc : s.closing = false) (hact : s.active_trade = false) (hflat : inp.exchPosAmt = 0) :
    bot_logic m inp s = cycleContinue m inp s [BotAction.fetchPositions] := by
  simp [bot_logic, hc, hact, hflat]

/-- Helper: with enough candles, an inactive record dispatches to the entry
branch. -/
theorem cycleContinue_inactive (m : MarketInfo) (inp : CycleInput) (s : PositionState)
    (acts : List BotAction) (hcand : inp.candlesSufficient = true)
    (hact : s.active_trade = false) :
    cycleContinue m inp s acts = cycleEntry m inp s (acts ++ [BotAction.fetchCandles]) := by
  simp [cycleContinue, hcand, hact]

/-- **C3**: in the flat state with a signal, writing `a` for the quantity
obtained by rounding the effective notional target at the current price to
the venue's amount precision: if `a` is below the venue minimum quantity or
`a × price` is below the venue minimum notional, the entry is rejected
locally — the tick ends after the position and candle fetches, with no venue
order call and no store write; otherwise the submitted entry order carries
exactly the quantity `a` (never a quantity adjusted upward to meet the
minimums). -/
theorem claim_C3 (m : MarketInfo) (inp : CycleInput) (s : PositionState) (a : ℚ)
    (hact : s.active_trade = false) (hc : s.closing = false)
    (hflat : inp.exchPosAmt = 0) (hcand : inp.candlesSufficient = true)
    (hsig : (inp.bullishDiv || inp.bearishDiv) = true)
    (ha : a = roundDec m.amountDecimals
      (max m.orderSizeUsd (m.minNotional * (11 / 10)) / inp.price)) :
    (a < m.minAmount ∨ a * inp.price < m.minNotional →
      bot_logic m inp s = ([BotAction.fetchPositions, BotAction.fetchCandles], s)) ∧
    (¬(a < m.minAmount ∨ a * inp.price < m.minNotional) →
      ∃ rest, (bot_logic m inp s).1 =
        [BotAction.fetchPositions, BotAction.fetchCandles,
          BotAction.marketOrder (if inp.bullishDiv then OrderSide.buy else OrderSide.sell)
            a false] ++ rest) := by
  subst ha
  rw [bot_logic_flat_continue m inp s hc hact hflat,
    cycleContinue_inactive m inp s _ hcand hact]
  constructor
  · intro hrej
    simp [cycleEntry, hsig, hrej]
  · intro hok
    by_cases he : inp.entryOrderOk
    · by_cases hp : inp.protOrdersOk
      · exact ⟨_, by simp [cycleEntry, hsig, hok, he, hp]; rfl⟩
      · exact ⟨_, by simp [cycleEntry, hsig, hok, he, hp]; rfl⟩
    · exact ⟨[], by simp [cycleEntry, hsig, hok, he]⟩

/-- Witness for C3: the reject branch at notional target `max 5 5.5 = 5.5`,
price 4, whole-unit step (amount `1.375 → 1`, notional `4 < 5`), and the
accept branch at the source configuration (amount 14 at price 100). -/
theorem claim_C3_witness :
    (bot_logic { mInfo0 with orderSizeUsd := 5 }
        { cInpFail with exchPosAmt := 0, bullishDiv := true, price := 4 } resetTemplate =
      ([BotAction.fetchPositions, BotAction.fetchCandles], resetTemplate)) ∧
    (∃ rest, (bot_logic mInfo0
        { cInpFail with exchPosAmt := 0, bullishDiv := true, price := 100 }
        resetTemplate).1 =
      [BotAction.fetchPositions, BotAction.fetchCandles,
        BotAction.marketOrder OrderSide.buy 14 false] ++ rest) := by
  constructor
  · exact (claim_C3 { mInfo0 with orderSizeUsd := 5 }
      { cInpFail with exchPosAmt := 0, bullishDiv := true, price := 4 }
      resetTemplate 1 rfl rfl rfl rfl rfl
      (by norm_num [mInfo0, cInpFail, roundDec, round_eq])).1
      (by norm_num [mInfo0, cInpFail])
  · have h := (claim_C3 mInfo0
      { cInpFail with exchPosAmt := 0, bullishDiv := true, price := 100 }
      resetTemplate 14 rfl rfl rfl rfl rfl
      (by norm_num [mInfo0, cInpFail, roundDec, round_eq])).2
      (by norm_num [mInfo0, cInpFail])
    simpa using h

/-- Counterexample to C6 as stated: a successful long entry at price 100 with
volatility 1.234 under a venue price precision of one decimal persists
`stop_loss_price = 98.6` (the rounded copy, source lines 275–277), while the
claim's exact formula `entry − max(1.1×1.234, 100×0.008) = 98.6426` differs
from it — so the persisted record does not satisfy the claimed exact
equalities. -/
theorem claim_C6_counterexample :
    (bot_logic mInfo0
        { cInpFail with
          exchPosAmt := 0
          bullishDiv := true
          price := 100
          atr := 1234 / 1000 } resetTemplate).2.stop_loss_price = 986 / 10 ∧
    (986 / 10 : ℚ) ≠
      100 - max (ATR_MULTIPLIER * (1234 / 1000)) (100 * STOP_LOSS_PCT) := by
  constructor
  · rw [bot_logic_flat_continue mInfo0
      { cInpFail with
        exchPosAmt := 0
        bullishDiv := true
        price := 100
        atr := 1234 / 1000 } resetTemplate rfl rfl rfl,
      cycleContinue_inactive mInfo0
      { cInpFail with
        exchPosAmt := 0
        bullishDiv := true
        price := 100
        atr := 1234 / 1000 } resetTemplate _ rfl rfl]
    norm_num [cycleEntry, mInfo0, cInpFail, roundDec, round_eq,
      ATR_MULTIPLIER, STOP_LOSS_PCT, PROFIT_TARGET_PCT, max_def]
  · norm_num [ATR_MULTIPLIER, STOP_LOSS_PCT, max_def]

/-- **C6 (amended)**: a successful entry at observed price `entry` with
volatility `v` persists target and static stop equal to the claim's formulas
*rounded to the venue price precision* — target = round(entry ±
entry×PROFIT_TARGET_PCT), stop = round(entry ∓ max(ATR_MULTIPLIER×v,
entry×STOP_LOSS_PCT)) — the trailing stop initialized from the same trail
distance (its persisted value is the identically rounded copy of the stop
formula), the running extremum initialized to the entry price exactly, and
`entry_price` stored unrounded. -/
theorem claim_C6 (m : MarketInfo) (inp : CycleInput) (s : PositionState)
    (hact : s.active_trade = false) (hc : s.closing = false)
    (hflat : inp.exchPosAmt = 0) (hcand : inp.candlesSufficient = true)
    (he : inp.entryOrderOk = true) (hp : inp.protOrdersOk = true)
    (hok : ¬(roundDec m.amountDecimals
        (max m.orderSizeUsd (m.minNotional * (11 / 10)) / inp.price) < m.minAmount ∨
      roundDec m.amountDecimals
        (max m.orderSizeUsd (m.minNotional * (11 / 10)) / inp.price) * inp.price
        < m.minNotional)) :
    (inp.bullishDiv = true →
      (bot_logic m inp s).2 =
        { active_trade := true
          position_side := Side.long
          entry_price := inp.price
          stop_loss_price := roundDec m.priceDecimals
            (inp.price - max (ATR_MULTIPLIER * inp.atr) (inp.price * STOP_LOSS_PCT))
          target_price := roundDec m.priceDecimals
            (inp.price + inp.price * PROFIT_TARGET_PCT)
          highest := some inp.price
          lowest := none
          trailing_stop_level := some (roundDec m.priceDecimals
            (inp.price - max (ATR_MULTIPLIER * inp.atr) (inp.price * STOP_LOSS_PCT)))
          sl_order_id := some inp.slOrderId
          tp_order_id := some inp.tpOrderId
          atr_at_entry := some inp.atr
          closing := false }) ∧
    (inp.bullishDiv = false → inp.bearishDiv = true →
      (bot_logic m inp s).2 =
        { active_trade := true
          position_side := Side.short
          entry_price := inp.price
          stop_loss_price := roundDec m.priceDecimals
            (inp.price + max (ATR_MULTIPLIER * inp.atr) (inp.price * STOP_LOSS_PCT))
          target_price := roundDec m.priceDecimals
            (inp.price - inp.price * PROFIT_TARGET_PCT)
          highest := none
          lowest := some inp.price
          trailing_stop_level := some (roundDec m.priceDecimals
            (inp.price + max (ATR_MULTIPLIER * inp.atr) (inp.price * STOP_LOSS_PCT)))
          sl_order_id := some inp.slOrderId
          tp_order_id := some inp.tpOrderId
          atr_at_entry := some inp.atr
          closing := false }) := by
  rw [bot_logic_flat_continue m inp s hc hact hflat,
    cycleContinue_inactive m inp s _ hcand hact]
  constructor
  · intro hbull
    simp [cycleEntry, hbull, hok, he, hp]
  · intro hbull hbear
    simp [cycleEntry, hbull, hbear, hok, he, hp]

/-- Witness for C6's amended statement, on the spec's own example where the
rounding is exact: long entry at price 100 with volatility 1.0 persists stop
98.9, target 101.0, trailing stop 98.9 and extremum 100. -/
theorem claim_C6_witness :
    (bot_logic mInfo0 { cInpFail with exchPosAmt := 0, bullishDiv := true, price := 100 }
        resetTemplate).2 =
      { active_trade := true, position_side := Side.long, entry_price := 100,
        stop_loss_price := 989 / 10, target_price := 101, highest := some 100,
        lowest := none, trailing_stop_level := some (989 / 10),
        sl_order_id := some 7, tp_order_id := some 8,
        atr_at_entry := some 1, closing := false } := by
  have h := (claim_C6 mInfo0
      { cInpFail with exchPosAmt := 0, bullishDiv := true, price := 100 }
      resetTemplate rfl rfl rfl rfl rfl rfl
      (by norm_num [mInfo0, cInpFail, roundDec, round_eq])).1 rfl
  rw [h]
  norm_num [mInfo0, cInpFail, roundDec, round_eq,
    ATR_MULTIPLIER, STOP_LOSS_PCT, PROFIT_TARGET_PCT, max_def]

/-- Helper: an active, non-closing record with a matching (non-flat) venue
position and enough candles dispatches to the exit branch. -/
theorem bot_logic_active_exit (m : MarketInfo) (inp : CycleInput) (s : PositionState)
    (hc : s.closing = false) (hact : s.active_trade = true) (hpos : inp.exchPosAmt ≠ 0)
    (hcand : inp.candlesSufficient = true) :
    bot_logic m inp s =
      cycleExit inp s [BotAction.fetchPositions, BotAction.fetchCandles] := by
  simp [bot_logic, hc, hact, hpos, cycleContinue, hcand]

/-- Helper: an exit trigger whose close order fails leaves the stored record
equal to the tick's input record with only `closing` flipped. -/
theorem cycleExit_fail (inp : CycleInput) (s : PositionState) (acts : List BotAction)
    (htrig : (cycleCloseReason s.position_side.isLong inp.price
        (cycleTrailUpdate s.position_side.isLong inp.price s.highest s.lowest
          s.trailing_stop_level (s.atr_at_entry.getD inp.atr)).2.2
        s.target_price).isSome = true)
    (hfail : inp.closeOrderOk = false) :
    (cycleExit inp s acts).2 = { s with closing := true } := by
  obtain ⟨r, hr⟩ := Option.isSome_iff_exists.mp htrig
  simp [cycleExit, hr, hfail]

/-- **C2 (amended)**: on a Strategy Cycle close attempt whose reduce-only
close order fails, the persisted record keeps `closing = true` with every
other field unchanged (it is exactly the tick's input record with `closing`
flipped), so it never silently reverts to an active non-closing state —
however the close is *not* retried: every subsequent tick of either driver
observes `closing = true` and does nothing. -/
theorem claim_C2 (m : MarketInfo) (inp inp2 : CycleInput) (pinp : PollInput)
    (s : PositionState)
    (hact : s.active_trade = true) (hc : s.closing = false)
    (hpos : inp.exchPosAmt ≠ 0) (hcand : inp.candlesSufficient = true)
    (htrig : (cycleCloseReason s.position_side.isLong inp.price
        (cycleTrailUpdate s.position_side.isLong inp.price s.highest s.lowest
          s.trailing_stop_level (s.atr_at_entry.getD inp.atr)).2.2
        s.target_price).isSome = true)
    (hfail : inp.closeOrderOk = false) :
    (bot_logic m inp s).2 = { s with closing := true } ∧
    bot_logic m inp2 { s with closing := true } = ([], { s with closing := true }) ∧
    trailing_stop_checker pinp { s with closing := true } =
      ([], { s with closing := true }) := by
  refine ⟨?_, ?_, ?_⟩
  · rw [bot_logic_active_exit m inp s hc hact hpos hcand]
    exact cycleExit_fail inp s _ htrig hfail
  · simp [bot_logic]
  · simp [trailing_stop_checker]

/-- Witness for C2's amended statement at the concrete record `sLong0` with
the price through the trailing stop and a failing close order. -/
theorem claim_C2_witness :
    (bot_logic mInfo0 cInpFail sLong0).2 = { sLong0 with closing := true } ∧
    bot_logic mInfo0 cInpFail { sLong0 with closing := true } =
      ([], { sLong0 with closing := true }) ∧
    trailing_stop_checker pInp0 { sLong0 with closing := true } =
      ([], { sLong0 with closing := true }) :=
  claim_C2 mInfo0 cInpFail cInpFail pInp0 sLong0 rfl rfl
    (by norm_num [cInpFail]) rfl
    (by norm_num [sLong0, cInpFail, cycleCloseReason, cycleTrailUpdate,
      Side.isLong, ATR_MULTIPLIER, STOP_LOSS_PCT, max_def]) rfl

/-- Counterexample to C2 as stated: after the failed close at price 90 the
record is `sLong0closing` (with `closing = true`), and the next tick of the
Strategy Cycle and of the Fast Stop Poller both produce an *empty* trace —
no close order is submitted by either driver, so the close is never retried,
contradicting "the close is retried on the next tick of whichever driver
notices". -/
theorem claim_C2_counterexample :
    (bot_logic mInfo0 cInpFail sLong0).2 = sLong0closing ∧
    bot_logic mInfo0 cInpFail sLong0closing = ([], sLong0closing) ∧
    trailing_stop_checker pInp0 sLong0closing = ([], sLong0closing) := by
  refine ⟨?_, ?_, ?_⟩
  · rw [bot_logic_active_exit mInfo0 cInpFail sLong0 rfl rfl (by norm_num [cInpFail]) rfl]
    rw [cycleExit_fail cInpFail sLong0 _
      (by norm_num [sLong0, cInpFail, cycleCloseReason, cycleTrailUpdate,
        Side.isLong, ATR_MULTIPLIER, STOP_LOSS_PCT, max_def]) rfl]
    rfl
  · simp [bot_logic, sLong0closing]
  · simp [trailing_stop_checker, sLong0closing]

/-- **C10**: in the Fast Stop Poller's close path (after the trailing stop
triggers and `closing = true` is persisted), the reduce-only close order is
submitted only when the freshly fetched venue quantity is strictly positive:
at zero venue quantity the record is reset to the inactive template with no
market order in the trace; if the position fetch raises, or the order call
raises, the record is not reset and keeps `closing = true`; and at positive
quantity with a successful order the record is reset and the reduce-only
order for the venue quantity is in the trace. -/
theorem claim_C10 (pinp : PollInput) (s : PositionState) (a : ℚ)
    (hact : s.active_trade = true) (hc : s.closing = false)
    (ha : s.atr_at_entry = some a)
    (htrig : (pollerCloseReason s.position_side.isLong pinp.price
        (pollerTrailUpdate s.position_side.isLong pinp.price s.highest s.lowest
          s.trailing_stop_level a).2.2).isSome = true) :
    (pinp.closeFetchOk = true → pinp.exchPosAmt = 0 →
      trailing_stop_checker pinp s =
        ([BotAction.fetchTicker, BotAction.persist { s with closing := true }] ++
          cancelActs s ++ [BotAction.fetchPositions, BotAction.persist resetTemplate],
          resetTemplate)) ∧
    (pinp.closeFetchOk = false →
      (trailing_stop_checker pinp s).2 = { s with closing := true }) ∧
    (pinp.closeFetchOk = true → 0 < |pinp.exchPosAmt| → pinp.closeOrderOk = false →
      (trailing_stop_checker pinp s).2 = { s with closing := true }) ∧
    (pinp.closeFetchOk = true → 0 < |pinp.exchPosAmt| → pinp.closeOrderOk = true →
      (trailing_stop_checker pinp s).2 = resetTemplate ∧
      BotAction.marketOrder
          (if s.position_side.isLong then OrderSide.sell else OrderSide.buy)
          |pinp.exchPosAmt| true ∈ (trailing_stop_checker pinp s).1) := by
  obtain ⟨r, hr⟩ := Option.isSome_iff_exists.mp htrig
  refine ⟨?_, ?_, ?_, ?_⟩
  · intro hfetch hq0
    simp [trailing_stop_checker, hact, hc, ha, hr, hfetch, hq0]
  · intro hfetch
    simp [trailing_stop_checker, hact, hc, ha, hr, hfetch]
  · intro hfetch hq horder
    simp [trailing_stop_checker, hact, hc, ha, hr, hfetch, hq, horder]
  · intro hfetch hq horder
    simp [trailing_stop_checker, hact, hc, ha, hr, hfetch, hq, horder]

/-- Witness for C10 at the concrete record `sLong0` and price 90: zero venue
quantity resets with no order; a raising fetch keeps `closing = true`; a
failing order keeps `closing = true`; a successful order at venue quantity
10 submits the reduce-only sell and resets. -/
theorem claim_C10_witness :
    (trailing_stop_checker { pInp0 with exchPosAmt := 0 } sLong0 =
      ([BotAction.fetchTicker, BotAction.persist { sLong0 with closing := true }] ++
        cancelActs sLong0 ++
        [BotAction.fetchPositions, BotAction.persist resetTemplate], resetTemplate)) ∧
    ((trailing_stop_checker { pInp0 with closeFetchOk := false } sLong0).2 =
      { sLong0 with closing := true }) ∧
    ((trailing_stop_checker pInp0 sLong0).2 = { sLong0 with closing := true }) ∧
    ((trailing_stop_checker { pInp0 with closeOrderOk := true } sLong0).2 =
        resetTemplate ∧
      BotAction.marketOrder OrderSide.sell 10 true ∈
        (trailing_stop_checker { pInp0 with closeOrderOk := true } sLong0).1) := by
  have h10 : |(10 : ℚ)| = 10 := abs_of_pos (by norm_num)
  refine ⟨?_, ?_, ?_, ?_⟩
  · exact (claim_C10 { pInp0 with exchPosAmt := 0 } sLong0 1 rfl rfl rfl
      (by norm_num [pollerCloseReason, pollerTrailUpdate, sLong0, pInp0,
        Side.isLong, ATR_MULTIPLIER, STOP_LOSS_PCT, max_def])).1 rfl rfl
  · exact (claim_C10 { pInp0 with closeFetchOk := false } sLong0 1 rfl rfl rfl
      (by norm_num [pollerCloseReason, pollerTrailUpdate, sLong0, pInp0,
        Side.isLong, ATR_MULTIPLIER, STOP_LOSS_PCT, max_def])).2.1 rfl
  · exact (claim_C10 pInp0 sLong0 1 rfl rfl rfl
      (by norm_num [pollerCloseReason, pollerTrailUpdate, sLong0, pInp0,
        Side.isLong, ATR_MULTIPLIER, STOP_LOSS_PCT, max_def])).2.2.1 rfl
      (by norm_num [pInp0]) rfl
  · have h := (claim_C10 { pInp0 with closeOrderOk := true } sLong0 1 rfl rfl rfl
      (by norm_num [pollerCloseReason, pollerTrailUpdate, sLong0, pInp0,
        Side.isLong, ATR_MULTIPLIER, STOP_LOSS_PCT, max_def])).2.2.2 rfl
      (by norm_num [pInp0]) rfl
    exact ⟨h.1, by simpa [sLong0, Side.isLong, pInp0, h10] using h.2⟩

/-- Helper: once a closing record has been persisted, the rest of any trace
is close-guarded. -/
theorem closeGuarded_of_seen (l : List BotAction) : closeGuarded l true = true := by
  induction l with
  | nil => rfl
  | cons a rest ih => simp [closeGuarded, ih]

/-- Helper: `closeGuarded` splits over list append, threading the
closing-persist flag. -/
theorem closeGuarded_append (l1 l2 : List BotAction) (b : Bool) :
    closeGuarded (l1 ++ l2) b =
      (closeGuarded l1 b && closeGuarded l2 (b || l1.any isClosingPersist)) := by
  induction l1 generalizing b with
  | nil => simp [closeGuarded]
  | cons a rest ih => simp [closeGuarded, ih, Bool.or_assoc, Bool.and_assoc]

/-- Helper: the Strategy Cycle exit branch keeps its trace close-guarded. -/
theorem closeGuarded_cycleExit (inp : CycleInput) (s : PositionState)
    (acts : List BotAction) (hacts : closeGuarded acts false = true) :
    closeGuarded (cycleExit inp s acts).1 false = true := by
  simp only [cycleExit]
  split
  · split <;>
      simp [closeGuarded_append, closeGuarded, isCloseCall, isClosingPersist,
        hacts, closeGuarded_of_seen]
  · simp [closeGuarded_append, closeGuarded, isCloseCall, isClosingPersist, hacts]

/-- Helper: the entry branch emits no close-sequence calls, so its trace is
close-guarded. -/
theorem closeGuarded_cycleEntry (m : MarketInfo) (inp : CycleInput) (s : PositionState)
    (acts : List BotAction) (hacts : closeGuarded acts false = true) :
    closeGuarded (cycleEntry m inp s acts).1 false = true := by
  simp only [cycleEntry]
  split
  · split
    · simpa using hacts
    · split
      · simp [closeGuarded_append, closeGuarded, isCloseCall, isClosingPersist, hacts]
      · split <;>
          simp [closeGuarded_append, closeGuarded, isCloseCall, isClosingPersist, hacts]
  · simpa using hacts

/-- Helper: the post-reconciliation cycle keeps its trace close-guarded. -/
theorem closeGuarded_cycleContinue (m : MarketInfo) (inp : CycleInput)
    (s : PositionState) (acts : List BotAction)
    (hacts : closeGuarded acts false = true) :
    closeGuarded (cycleContinue m inp s acts).1 false = true := by
  simp only [cycleContinue]
  split
  · simp [closeGuarded_append, closeGuarded, isCloseCall, isClosingPersist, hacts]
  · split
    · exact closeGuarded_cycleExit inp s _
        (by simp [closeGuarded_append, closeGuarded, isCloseCall, isClosingPersist, hacts])
    · exact closeGuarded_cycleEntry m inp s _
        (by simp [closeGuarded_append, closeGuarded, isCloseCall, isClosingPersist, hacts])

/-- **C5**: in every tick of either driver, every venue call of a close
sequence (a protective-order cancellation or a reduce-only market order) is
preceded in the tick's trace by a store write persisting a record with
`closing = true` — i.e. `closing` is set and persisted before any
cancel/close call is issued. -/
theorem claim_C5 (m : MarketInfo) (inp : CycleInput) (pinp : PollInput)
    (s : PositionState) :
    closeGuarded (bot_logic m inp s).1 false = true ∧
    closeGuarded (trailing_stop_checker pinp s).1 false = true := by
  constructor
  · simp only [bot_logic]
    split
    · simp [closeGuarded]
    · split
      · exact closeGuarded_cycleContinue m inp resetTemplate _
          (by simp [closeGuarded, isCloseCall])
      · split
        · simp [closeGuarded, isCloseCall]
        · exact closeGuarded_cycleContinue m inp s _
            (by simp [closeGuarded, isCloseCall])
  · simp only [trailing_stop_checker]
    split
    · simp [closeGuarded]
    · cases ha : s.atr_at_entry <;>
        simp only [ha] <;>
        split <;> (try split_ifs) <;>
        simp [closeGuarded_append, closeGuarded, isCloseCall, isClosingPersist,
          closeGuarded_of_seen]
